import Mathlib

/-
Verification development for the edge-exchange-plugins swap orchestration
code.  The godex plugin (src/src/index.ts and the legacy copy in
src/unnamed/part_000) and the totle plugin (src/src/swap/totle.js) are
shallowly embedded below.  Decimal amount strings handled by biggystring
are modelled as exact rationals (biggystring performs exact decimal
arithmetic); native integer amount strings are modelled as naturals, and
the output of biggystring floor(x, 0) as an integer.
-/

namespace Edge

/-- Side carried by a SwapBelowLimitError: the quoted side of the request. -/
inductive Side where
  | sFrom
  | sTo
deriving DecidableEq, Repr

/-- The quoteFor field of an EdgeSwapRequestPlugin: 'from' | 'max' | 'to'. -/
inductive QuoteFor where
  | qFrom
  | qMax
  | qTo
deriving DecidableEq, Repr

/-- The four godex API endpoints hit by fetchSwapQuoteInner. -/
inductive Endpoint where
  | info
  | infoRevert
  | transaction
  | transactionRevert
deriving DecidableEq, Repr

/-- Errors thrown by the godex plugin: SwapCurrencyError, a generic Error
carrying the HTTP status code, and SwapBelowLimitError carrying the native
minimum (a decimal string, modelled as a rational) and the quoted side. -/
inductive GodexError where
  | currency
  | protocol (status : Nat)
  | belowLimit (nativeMin : ℚ) (side : Side)
deriving DecidableEq, Repr

/-- An HTTP reply as observed through the fetch API: ok flag, status code,
and the parsed JSON body. -/
structure HttpResponse (α : Type) where
  ok : Bool
  status : Nat
  body : α
deriving Repr

/-- The godex fetch helper `call` (src/src/index.ts lines 217-236): a
non-ok reply with status 422 throws SwapCurrencyError, any other non-ok
reply throws a generic error carrying the status code, and an ok reply
returns the parsed JSON body. -/
def call {α : Type} (response : HttpResponse α) : Except GodexError α :=
  if !response.ok then
    if response.status == 422 then Except.error GodexError.currency
    else Except.error (GodexError.protocol response.status)
  else Except.ok response.body

/-- One invocation of `call` against a stream of pending HTTP replies:
exactly the head reply is consumed and the rest of the stream is returned
untouched, whatever the outcome (the helper has no internal retry). -/
def callOnStream {α : Type} (stream : List (HttpResponse α)) :
    Option (Except GodexError α × List (HttpResponse α)) :=
  match stream with
  | [] => none
  | response :: rest => some (call response, rest)

/-! ### Amount Converter (wallet runtime boundary) -/

/-- Modelled from the spec: the wallet runtime's `nativeToDenomination`
(edge-core-js, outside src/) divides a native integer amount by 10^decimals
using exact decimal arithmetic (spec section 4.1 Amount Converter). -/
def nativeToDenomination (amount : Nat) (decimals : Nat) : ℚ :=
  (amount : ℚ) / (10 : ℚ) ^ decimals

/-- Modelled from the spec: the wallet runtime's `denominationToNative`
(edge-core-js, outside src/) multiplies a decimal amount by 10^decimals
using exact decimal arithmetic (spec section 4.1 Amount Converter). -/
def denominationToNative (amount : ℚ) (decimals : Nat) : ℚ :=
  amount * (10 : ℚ) ^ decimals

/-- The spec's `toDenomination`: native integer amount to decimal
denomination. -/
def toDenomination (amount : Nat) (decimals : Nat) : ℚ :=
  nativeToDenomination amount decimals

/-- The spec's `toNative`: decimal denomination to a native integer amount,
as assembled in fetchSwapQuoteInner (src/src/index.ts lines 347-360):
biggystring floor(x, 0) applied to the wallet conversion, modelled as the
integer floor of the exact rational conversion. -/
def toNative (amount : ℚ) (decimals : Nat) : ℤ :=
  ⌊denominationToNative amount decimals⌋

/-! ### Godex backend reply shapes -/

/-- Raw JSON body of the godex info / info-revert reply.  The backend may
also declare a maximum amount; the cleaner asApiInfo (src/src/index.ts
lines 111-127) parses only min_amount, networks_from and networks_to, so
any max_amount field in the raw reply is dropped. -/
structure RawApiReply where
  min_amount : ℚ
  max_amount : Option ℚ
  networks_from : Option (List String)
  networks_to : Option (List String)
deriving DecidableEq, Repr

/-- The parsed godex info reply (cleaner asApiInfo, src/src/index.ts lines
111-127): min_amount plus the optional network lists. -/
structure ApiInfo where
  min_amount : ℚ
  networks_from : Option (List String)
  networks_to : Option (List String)
deriving DecidableEq, Repr

/-- The cleaner asApiInfo: keeps min_amount, networks_from, networks_to and
drops every other field of the raw reply (cleaners asObject ignores
unknown fields). -/
def asApiInfo (raw : RawApiReply) : ApiInfo :=
  { min_amount := raw.min_amount
    networks_from := raw.networks_from
    networks_to := raw.networks_to }

/-- The parsed godex transaction / transaction-revert reply (cleaner
asQuoteInfo, src/src/index.ts lines 129-139).  The `return` fields are
named returnAddr / returnExtraId because `return` is reserved in Lean. -/
structure QuoteInfo where
  transaction_id : String
  deposit : String
  deposit_extra_id : Option String
  deposit_amount : ℚ
  withdrawal : String
  withdrawal_extra_id : Option String
  withdrawal_amount : ℚ
  returnAddr : String
  returnExtraId : Option String
deriving DecidableEq, Repr

/-! ### Currency code policy tables (src/src/index.ts) -/

/-- MAINNET_CODE_TRANSCRIPTION from src/src/index.ts lines 152-210: wallet
network pluginId to godex network label. -/
def MAINNET_CODE_TRANSCRIPTION : List (String × String) :=
  [("algorand", "ALGO"),
   ("arbitrum", "ARBITRUM"),
   ("avalanche", "AVAXC"),
   ("binance", "BNB"),
   ("binancesmartchain", "BSC"),
   ("bitcoin", "BTC"),
   ("bitcoincash", "BCH"),
   ("cardano", "ADA"),
   ("celo", "CELO"),
   ("cosmoshub", "ATOM"),
   ("dash", "DASH"),
   ("digibyte", "DGB"),
   ("dogecoin", "DOGE"),
   ("eos", "EOS"),
   ("ethereumclassic", "ETC"),
   ("ethereum", "ETH"),
   ("fantom", "FTM"),
   ("filecoin", "FIL"),
   ("hedera", "HBAR"),
   ("litecoin", "LTC"),
   ("optimism", "OPTIMISM"),
   ("monero", "XMR"),
   ("polygon", "MATIC"),
   ("polkadot", "DOT"),
   ("qtum", "QTUM"),
   ("ravencoin", "RVN"),
   ("rsk", "RSK"),
   ("stellar", "XLM"),
   ("solana", "SOL"),
   ("tezos", "XTZ"),
   ("tron", "TRX"),
   ("ton", "TON"),
   ("zcash", "ZEC"),
   ("zcoin", "FIRO")]

/-- Modelled from the spec: `transcribe` (getCodesWithTranscription in
util/swapHelpers, outside src/) returns the mapped backend label for a
wallet network id, or the unmodified id when the table has no entry
(spec section 4.2 Currency Code Policy). -/
def transcribe (pluginId : String) : String :=
  match MAINNET_CODE_TRANSCRIPTION.lookup pluginId with
  | some label => label
  | none => pluginId

/-- A wallet network id is whitelisted when it has an entry in the
transcription table. -/
def whitelisted (pluginId : String) : Bool :=
  (MAINNET_CODE_TRANSCRIPTION.lookup pluginId).isSome

/-- One entry of an InvalidCurrencyCodes table: a network may disallow all
codes, all tokens, or an explicit list of codes. -/
inductive InvalidMode where
  | allCodes
  | allTokens
  | codes (list : List String)
deriving DecidableEq, Repr

/-- INVALID_CURRENCY_CODES.from of src/src/index.ts lines 141-148. -/
def invalidFromTable : List (String × InvalidMode) :=
  [("digibyte", InvalidMode.allCodes)]

/-- INVALID_CURRENCY_CODES.to of src/src/index.ts lines 141-148. -/
def invalidToTable : List (String × InvalidMode) :=
  [("zcash", InvalidMode.codes ["ZEC"])]

/-- Modelled from the spec: one leg of checkInvalidCodes (util/swapHelpers,
outside src/): a leg is disallowed when its network is wholly blacklisted,
when the leg is a token and all tokens are blacklisted, or when its
currency code appears in the blacklisted set for that network
(spec section 4.2 Currency Code Policy). -/
def legInvalid (table : List (String × InvalidMode)) (pluginId : String)
    (currencyCode : String) (tokenId : Option String) : Bool :=
  match table.lookup pluginId with
  | none => false
  | some InvalidMode.allCodes => true
  | some InvalidMode.allTokens => tokenId.isSome
  | some (InvalidMode.codes list) => list.contains currencyCode

/-! ### Godex request, environment and flow -/

/-- The parts of an EdgeSwapRequestPlugin the godex flow reads
(src/src/swap/types.ts lines 4-13); wallet objects are represented by
their currencyInfo pluginId. -/
structure Request where
  nativeAmount : Nat
  quoteFor : QuoteFor
  fromCurrencyCode : String
  toCurrencyCode : String
  fromPluginId : String
  toPluginId : String
  fromTokenId : Option String
  toTokenId : Option String
deriving Repr

/-- External world the godex flow runs against: the two wallets' decimal
place counts and addresses, and the backend replies to the info and
transaction calls. -/
structure GodexEnv where
  fromDecimals : Nat
  toDecimals : Nat
  fromAddress : String
  toAddress : String
  infoResponse : HttpResponse RawApiReply
  txResponse : HttpResponse QuoteInfo
deriving Repr

/-- The SwapOrder assembled by fetchSwapQuoteInner: the floored native
amounts, deposit address, memo and order id. -/
structure SwapOrder where
  fromNativeAmount : ℤ
  toNativeAmount : ℤ
  depositAddress : String
  memo : Option String
  orderId : String
deriving DecidableEq, Repr

/-- The endpoint of the first call of fetchSwapQuoteInner: 'info' for a
'from' quote, 'info-revert' otherwise. -/
def godexInfoEndpoint (req : Request) : Endpoint :=
  if req.quoteFor == QuoteFor.qFrom then Endpoint.info else Endpoint.infoRevert

/-- The order-creation endpoint of fetchSwapQuoteInner:
'transaction-revert' for a reverse quote, 'transaction' otherwise. -/
def godexTxEndpoint (req : Request) : Endpoint :=
  if req.quoteFor == QuoteFor.qTo then Endpoint.transactionRevert
  else Endpoint.transaction

/-- The native minimum computed by fetchSwapQuoteInner (src/src/index.ts
lines 292-300): the backend's min_amount converted through the to-wallet
for a reverse quote and through the from-wallet otherwise. -/
def godexNativeMin (env : GodexEnv) (req : Request) : ℚ :=
  if req.quoteFor == QuoteFor.qTo then
    denominationToNative (asApiInfo env.infoResponse.body).min_amount env.toDecimals
  else
    denominationToNative (asApiInfo env.infoResponse.body).min_amount env.fromDecimals

/-- Whether an optional godex network list contains the given label; an
absent list (networks are not present for disabled assets) never does. -/
def networkListHas (list : Option (List String)) (label : String) : Bool :=
  match list with
  | none => false
  | some xs => xs.contains label

/-- The network check of fetchSwapQuoteInner (src/src/index.ts lines
310-319): both transcribed mainnet codes must be found in the reply's
networks_from / networks_to lists. -/
def godexNetworksOk (env : GodexEnv) (req : Request) : Bool :=
  networkListHas (asApiInfo env.infoResponse.body).networks_from
      (transcribe req.fromPluginId) &&
    networkListHas (asApiInfo env.infoResponse.body).networks_to
      (transcribe req.toPluginId)

/-- fetchSwapQuoteInner of the godex plugin (src/src/index.ts lines
238-420), with the endpoints hit recorded in order.  The info endpoint is
called first; if the requested native amount is strictly below the
converted minimum a SwapBelowLimitError is thrown; then the network lists
are checked; only then is the order-creation endpoint called and the
SwapOrder assembled with floored native amounts.  On the ok path of a
`call` the bound body equals the response's body, so the parsed reply is
written through the environment directly. -/
def fetchSwapQuoteInner (env : GodexEnv) (req : Request) :
    List Endpoint × Except GodexError SwapOrder :=
  match call env.infoResponse with
  | Except.error e => ([godexInfoEndpoint req], Except.error e)
  | Except.ok _ =>
    if (req.nativeAmount : ℚ) < godexNativeMin env req then
      ([godexInfoEndpoint req],
       Except.error (GodexError.belowLimit (godexNativeMin env req)
         (if req.quoteFor == QuoteFor.qTo then Side.sTo else Side.sFrom)))
    else if !godexNetworksOk env req then
      ([godexInfoEndpoint req], Except.error GodexError.currency)
    else
      match call env.txResponse with
      | Except.error e =>
        ([godexInfoEndpoint req, godexTxEndpoint req], Except.error e)
      | Except.ok quoteInfo =>
        ([godexInfoEndpoint req, godexTxEndpoint req],
         Except.ok
           { fromNativeAmount := toNative quoteInfo.deposit_amount env.fromDecimals
             toNativeAmount := toNative quoteInfo.withdrawal_amount env.toDecimals
             depositAddress := quoteInfo.deposit
             memo := quoteInfo.deposit_extra_id
             orderId := quoteInfo.transaction_id })

/-- Whether checkInvalidCodes throws for this request: either leg matches
the plugin's INVALID_CURRENCY_CODES table. -/
def checkInvalidCodesThrows (req : Request) : Bool :=
  legInvalid invalidFromTable req.fromPluginId req.fromCurrencyCode req.fromTokenId ||
    legInvalid invalidToTable req.toPluginId req.toCurrencyCode req.toTokenId

/-- Whether checkWhitelistedMainnetCodes throws for this request: either
leg's network has no entry in the transcription table.  Modelled from the
spec: the helper lives in util/swapHelpers, outside src/
(spec section 4.2: signals UnsupportedPairError when either leg's network
is not present in the transcription table at all). -/
def checkWhitelistThrows (req : Request) : Bool :=
  !whitelisted req.fromPluginId || !whitelisted req.toPluginId

/-- Modelled from the spec: getMaxSwappable (util/swapHelpers, outside
src/) returns the request unchanged when quoteFor is not 'max'
(spec section 4.5: the resolver loop only applies to max requests); the
max resolution loop itself is not modelled, so the flow below is faithful
only for quoteFor other than 'max'. -/
def getMaxSwappable (req : Request) : Request :=
  req

/-- fetchSwapQuote of the godex plugin (src/src/index.ts lines 425-445):
checkInvalidCodes, then checkWhitelistedMainnetCodes (both throwing
SwapCurrencyError before any network call), then getMaxSwappable and
fetchSwapQuoteInner. -/
def fetchSwapQuote (env : GodexEnv) (req : Request) :
    List Endpoint × Except GodexError SwapOrder :=
  if checkInvalidCodesThrows req then ([], Except.error GodexError.currency)
  else if checkWhitelistThrows req then ([], Except.error GodexError.currency)
  else fetchSwapQuoteInner env (getMaxSwappable req)

/-! ### getAddress (legacy godex file, src/unnamed/part_000) -/

/-- The receive-address reply of the wallet runtime: an optional
legacy-format address and the public address. -/
structure AddressInfo where
  legacyAddress : Option String
  publicAddress : String
deriving DecidableEq, Repr

/-- The dontUseLegacy table of src/unnamed/part_000 lines 56-58: only DGB
is flagged. -/
def dontUseLegacy (currencyCode : String) : Bool :=
  currencyCode == "DGB"

/-- getAddress of src/unnamed/part_000 lines 86-94: the legacy address
when it is non-null and the currency code is not flagged in dontUseLegacy,
the public address otherwise. -/
def getAddress (addressInfo : AddressInfo) (currencyCode : String) : String :=
  match addressInfo.legacyAddress with
  | some legacy =>
    if !dontUseLegacy currencyCode then legacy else addressInfo.publicAddress
  | none => addressInfo.publicAddress

/-! ### Totle plugin (src/src/swap/totle.js) -/

/-- The parts of an EdgeTransaction the totle quote reads and writes:
the signed nativeAmount, the network fees, and the txid assigned on
broadcast. -/
structure Tx where
  nativeAmount : String
  networkFee : String
  parentNetworkFee : Option String
  txid : String
deriving DecidableEq, Repr

/-- The wallet runtime operations used by totle's approve: signTx and
broadcastTx, each of which may reject. -/
structure TotleWallet where
  signTx : Tx → Except String Tx
  broadcastTx : Tx → Except String Tx

/-- Observable wallet events of one approve() run, indexed by the position
of the transaction in the quote's array: the transaction was signed, its
signed form was broadcast, and the signed form was saved. -/
inductive TotleEv where
  | signed (i : Nat)
  | broadcasted (i : Nat)
  | saved (i : Nat)
deriving DecidableEq, Repr

/-- The EdgeSwapResult returned by approve: the broadcast swap
transaction, the destination address, and the orderId taken from the
broadcast transaction's txid. -/
structure ApproveResult where
  transaction : Tx
  destinationAddress : String
  orderId : String
deriving DecidableEq, Repr

/-- One approve() run: the wallet events in order, the quote's transaction
array after the run (approve mutates the last transaction's nativeAmount),
and the result or the thrown error. -/
structure ApproveRun where
  events : List TotleEv
  txsAfter : List Tx
  result : Except String ApproveResult
deriving Repr

/-- The loop body of approve (src/src/swap/totle.js lines 322-336): each
transaction is signed, then broadcast (the broadcast transaction is kept
as the candidate swapTx), then — only at the last index — the original
transaction's nativeAmount is overwritten with the negated
fromNativeAmount, then the signed transaction is saved; a rejected sign or
broadcast aborts the loop at once. -/
def approveLoop (w : TotleWallet) (fromNativeAmount : String) (lastIdx : Nat) :
    List Tx → Nat → Option Tx → List TotleEv × List Tx × Except String (Option Tx)
  | [], _, acc => ([], [], Except.ok acc)
  | tx :: rest, i, _ =>
    match w.signTx tx with
    | Except.error e => ([], tx :: rest, Except.error e)
    | Except.ok signedTx =>
      match w.broadcastTx signedTx with
      | Except.error e => ([TotleEv.signed i], tx :: rest, Except.error e)
      | Except.ok broadcastTx =>
        let newTx :=
          if i == lastIdx then { tx with nativeAmount := "-" ++ fromNativeAmount }
          else tx
        let r := approveLoop w fromNativeAmount lastIdx rest (i + 1) (some broadcastTx)
        (TotleEv.signed i :: TotleEv.broadcasted i :: TotleEv.saved i :: r.1,
         newTx :: r.2.1, r.2.2)

/-- approve of the totle quote (src/src/swap/totle.js lines 321-343): run
the loop over the transaction array; when it finishes with no candidate
swapTx (empty array) throw, otherwise return the last broadcast
transaction, the destination address, and its txid as orderId. -/
def approve (w : TotleWallet) (fromNativeAmount : String)
    (destinationAddress : String) (txs : List Tx) : ApproveRun :=
  let r := approveLoop w fromNativeAmount (txs.length - 1) txs 0 none
  { events := r.1
    txsAfter := r.2.1
    result :=
      match r.2.2 with
      | Except.error e => Except.error e
      | Except.ok none => Except.error "No Totle swapTx"
      | Except.ok (some swapTx) =>
        Except.ok
          { transaction := swapTx
            destinationAddress := destinationAddress
            orderId := swapTx.txid } }

/-- The network fee reported by makeTotleSwapPluginQuote
(src/src/swap/totle.js lines 309-315): the last transaction's
parentNetworkFee when non-null, its networkFee otherwise. -/
def totleNetworkFee (tx : Tx) : String :=
  match tx.parentNetworkFee with
  | some parentFee => parentFee
  | none => tx.networkFee

/-- The static fields of the EdgeSwapQuote built by
makeTotleSwapPluginQuote (src/src/swap/totle.js lines 292-348). -/
structure TotleQuote where
  fromNativeAmount : String
  toNativeAmount : String
  networkFeeNative : String
  destinationAddress : String
  isEstimate : Bool
  expirationDate : Option Nat
deriving DecidableEq, Repr

/-- makeTotleSwapPluginQuote (src/src/swap/totle.js lines 292-348): reads
txs[txs.length - 1] for the network fee; on an empty array the source
crashes dereferencing undefined, modelled as none. -/
def makeTotleSwapPluginQuote (fromNativeAmount toNativeAmount : String)
    (txs : List Tx) (destinationAddress : String) (isEstimate : Bool)
    (expirationDate : Option Nat) : Option TotleQuote :=
  match txs.getLast? with
  | none => none
  | some swapTx =>
    some
      { fromNativeAmount := fromNativeAmount
        toNativeAmount := toNativeAmount
        networkFeeNative := totleNetworkFee swapTx
        destinationAddress := destinationAddress
        isEstimate := isEstimate
        expirationDate := expirationDate }

/-- The event trace of a run of approve that fully processed transactions
start, start+1, ..., start+k-1: sign, broadcast, save for each index in
order. -/
def seqEventsFrom : Nat → Nat → List TotleEv
  | _, 0 => []
  | start, k + 1 =>
    TotleEv.signed start :: TotleEv.broadcasted start :: TotleEv.saved start ::
      seqEventsFrom (start + 1) k

/-- The transaction list after a successful pass of approveLoop: the entry
at absolute index lastIdx has its nativeAmount overwritten with the
negated fromNativeAmount, all other entries are unchanged. -/
def mutateLast (fromNativeAmount : String) (lastIdx : Nat) :
    List Tx → Nat → List Tx
  | [], _ => []
  | tx :: rest, i =>
    (if i == lastIdx then { tx with nativeAmount := "-" ++ fromNativeAmount }
     else tx) :: mutateLast fromNativeAmount lastIdx rest (i + 1)

/-! ### Helper lemmas -/

/-- A call against an ok response returns the parsed body. -/
theorem call_ok {α : Type} {r : HttpResponse α} (h : r.ok = true) :
    call r = Except.ok r.body := by
  simp [call, h]

/-- A call never fails with anything but SwapCurrencyError or a protocol
error carrying the status code. -/
theorem call_error_shape {α : Type} {r : HttpResponse α} {e : GodexError}
    (h : call r = Except.error e) :
    e = GodexError.currency ∨ e = GodexError.protocol r.status := by
  unfold call at h
  split at h
  · split at h
    · simp only [Except.error.injEq] at h
      exact Or.inl h.symm
    · simp only [Except.error.injEq] at h
      exact Or.inr h.symm
  · simp at h

/-- The info endpoint is never an order-creation endpoint. -/
theorem godexInfoEndpoint_ne (req : Request) :
    godexInfoEndpoint req ≠ Endpoint.transaction ∧
      godexInfoEndpoint req ≠ Endpoint.transactionRevert := by
  unfold godexInfoEndpoint
  split <;> simp

/-! ### Claim theorems -/

/-- C10: getAddress returns the wallet's legacy-format address whenever the
runtime supplies a non-null legacyAddress and the currency code is not
flagged in dontUseLegacy; in every other case it returns the public
address; and only DGB is flagged. -/
theorem getAddress_legacy_preference (addressInfo : AddressInfo)
    (currencyCode : String) :
    (∀ legacy, addressInfo.legacyAddress = some legacy →
      dontUseLegacy currencyCode = false →
      getAddress addressInfo currencyCode = legacy) ∧
    (addressInfo.legacyAddress = none ∨ dontUseLegacy currencyCode = true →
      getAddress addressInfo currencyCode = addressInfo.publicAddress) ∧
    (dontUseLegacy currencyCode = true ↔ currencyCode = "DGB") := by
  refine ⟨?_, ?_, ?_⟩
  · intro legacy hleg hflag
    simp [getAddress, hleg, hflag]
  · intro h
    cases h with
    | inl hnone => simp [getAddress, hnone]
    | inr hflag =>
      cases hcase : addressInfo.legacyAddress with
      | none => simp [getAddress, hcase]
      | some legacy => simp [getAddress, hcase, hflag]
  · simp [dontUseLegacy]

/-- Witness for C10 at a concrete wallet reply: a non-null legacy address
with an unflagged code is returned as-is. -/
theorem getAddress_legacy_preference_witness :
    getAddress { legacyAddress := some "1Legacy", publicAddress := "bc1Public" }
      "BTC" = "1Legacy" :=
  (getAddress_legacy_preference
    { legacyAddress := some "1Legacy", publicAddress := "bc1Public" } "BTC").1
    "1Legacy" rfl rfl

/-- C2: the godex fetch helper classifies a 422 reply as
SwapCurrencyError, any other non-ok reply as a protocol error carrying the
numeric status code, returns the parsed body of an ok reply, and consumes
exactly one pending reply per invocation with the rest of the stream
untouched (no internal retry), whatever the outcome. -/
theorem call_classification {α : Type} (response : HttpResponse α)
    (rest : List (HttpResponse α)) :
    (response.ok = false → response.status = 422 →
      call response = Except.error GodexError.currency) ∧
    (response.ok = false → response.status ≠ 422 →
      call response = Except.error (GodexError.protocol response.status)) ∧
    (response.ok = true → call response = Except.ok response.body) ∧
    callOnStream (response :: rest) = some (call response, rest) := by
  refine ⟨?_, ?_, ?_, rfl⟩
  · intro hok hstatus
    simp [call, hok, hstatus]
  · intro hok hstatus
    simp [call, hok, hstatus]
  · intro hok
    simp [call, hok]

/-- Witness for C2 at a concrete 422 reply: an unsupported-pair error is
thrown and only the head of the stream is consumed. -/
theorem call_classification_witness :
    call { ok := false, status := 422, body := (0 : Nat) } =
        Except.error GodexError.currency ∧
      callOnStream [{ ok := false, status := 422, body := (0 : Nat) }] =
        some (call { ok := false, status := 422, body := (0 : Nat) }, []) :=
  ⟨(call_classification { ok := false, status := 422, body := (0 : Nat) } []).1
      rfl rfl,
   (call_classification { ok := false, status := 422, body := (0 : Nat) } []).2.2.2⟩

/-- C4: converting a non-negative native integer amount to its decimal
denomination and back to native units yields exactly the original amount;
the arithmetic is exact rational arithmetic, so there is no precision
loss. -/
theorem toNative_toDenomination_roundTrip (amount decimals : Nat) :
    toNative (toDenomination amount decimals) decimals = amount := by
  unfold toNative toDenomination nativeToDenomination denominationToNative
  rw [div_mul_cancel₀ _ (pow_ne_zero decimals (by norm_num : (10 : ℚ) ≠ 0))]
  exact_mod_cast Int.floor_natCast amount

/-- The body bound on the ok path of a call is the response's body. -/
theorem call_ok_body {α : Type} {r : HttpResponse α} {a : α}
    (h : call r = Except.ok a) : a = r.body := by
  unfold call at h
  split at h
  · split at h <;> simp at h
  · simp only [Except.ok.injEq] at h
    exact h.symm

/-- C3: whenever fetchSwapQuoteInner assembles a quote, its
fromNativeAmount and toNativeAmount are the floors of the wallet-runtime
conversions of the backend's deposit_amount and withdrawal_amount, and the
conversion never returns a value greater than the exact mathematical
conversion (and truncates toward zero: it stays non-negative on
non-negative input). -/
theorem godex_quote_amounts_floored (env : GodexEnv) (req : Request)
    (order : SwapOrder)
    (h : (fetchSwapQuoteInner env req).2 = Except.ok order) :
    order.fromNativeAmount =
      toNative env.txResponse.body.deposit_amount env.fromDecimals ∧
    order.toNativeAmount =
      toNative env.txResponse.body.withdrawal_amount env.toDecimals ∧
    (∀ q : ℚ, ∀ d : Nat,
      (toNative q d : ℚ) ≤ denominationToNative q d ∧
        (0 ≤ q → 0 ≤ toNative q d)) := by
  have hmain : order.fromNativeAmount =
      toNative env.txResponse.body.deposit_amount env.fromDecimals ∧
      order.toNativeAmount =
        toNative env.txResponse.body.withdrawal_amount env.toDecimals := by
    unfold fetchSwapQuoteInner at h
    cases hc : call env.infoResponse with
    | error e => rw [hc] at h; simp at h
    | ok raw =>
      rw [hc] at h
      simp only at h
      split_ifs at h with h1 h2
      cases hct : call env.txResponse with
      | error e => rw [hct] at h; simp at h
      | ok qi =>
        rw [hct] at h
        simp only [Except.ok.injEq] at h
        rw [call_ok_body hct] at h
        rw [← h]
        exact ⟨rfl, rfl⟩
  refine ⟨hmain.1, hmain.2, ?_⟩
  intro q d
  unfold toNative
  refine ⟨Int.floor_le _, fun hq => Int.floor_nonneg.mpr ?_⟩
  unfold denominationToNative
  positivity

/-- A godex swap request for 1 BTC (100000000 satoshi) from bitcoin to
ethereum, quoted on the from side. -/
def reqA : Request :=
  { nativeAmount := 100000000
    quoteFor := QuoteFor.qFrom
    fromCurrencyCode := "BTC"
    toCurrencyCode := "ETH"
    fromPluginId := "bitcoin"
    toPluginId := "ethereum"
    fromTokenId := none
    toTokenId := none }

/-- A godex environment whose backend declares a 0.001 BTC minimum,
supports both networks, and quotes 1 BTC deposit for 0.016 ETH
withdrawal. -/
def envA : GodexEnv :=
  { fromDecimals := 8
    toDecimals := 18
    fromAddress := "fromAddr"
    toAddress := "toAddr"
    infoResponse :=
      { ok := true
        status := 200
        body :=
          { min_amount := 1 / 1000
            max_amount := none
            networks_from := some ["BTC"]
            networks_to := some ["ETH"] } }
    txResponse :=
      { ok := true
        status := 200
        body :=
          { transaction_id := "order-1"
            deposit := "godexDepositAddr"
            deposit_extra_id := none
            deposit_amount := 1
            withdrawal := "toAddr"
            withdrawal_extra_id := none
            withdrawal_amount := 16 / 1000
            returnAddr := "fromAddr"
            returnExtraId := none } } }

/-- The SwapOrder fetchSwapQuoteInner assembles for envA / reqA. -/
def orderA : SwapOrder :=
  { fromNativeAmount := 100000000
    toNativeAmount := 16000000000000000
    depositAddress := "godexDepositAddr"
    memo := none
    orderId := "order-1" }

/-- Witness for C3 at the concrete environment envA: the assembled quote
carries the floored native conversions. -/
theorem godex_quote_amounts_floored_witness :
    (fetchSwapQuoteInner envA reqA).2 = Except.ok orderA ∧
    (orderA.fromNativeAmount =
        toNative envA.txResponse.body.deposit_amount envA.fromDecimals ∧
      orderA.toNativeAmount =
        toNative envA.txResponse.body.withdrawal_amount envA.toDecimals ∧
      (∀ q : ℚ, ∀ d : Nat,
        (toNative q d : ℚ) ≤ denominationToNative q d ∧
          (0 ≤ q → 0 ≤ toNative q d))) := by
  have hok : (fetchSwapQuoteInner envA reqA).2 = Except.ok orderA := by
    simp only [fetchSwapQuoteInner, call, envA, reqA, orderA, godexNativeMin,
      godexNetworksOk, networkListHas, asApiInfo, transcribe,
      MAINNET_CODE_TRANSCRIPTION, denominationToNative, toNative,
      godexInfoEndpoint, godexTxEndpoint, nativeToDenomination, List.lookup]
    simp
    norm_num
  exact ⟨hok, godex_quote_amounts_floored envA reqA orderA hok⟩

/-- Path lemma: with an ok info reply and an amount strictly below the
converted minimum, fetchSwapQuoteInner stops at the info endpoint with a
SwapBelowLimitError. -/
theorem fetchSwapQuoteInner_below (env : GodexEnv) (req : Request)
    (hok : env.infoResponse.ok = true)
    (hlt : (req.nativeAmount : ℚ) < godexNativeMin env req) :
    fetchSwapQuoteInner env req =
      ([godexInfoEndpoint req],
       Except.error (GodexError.belowLimit (godexNativeMin env req)
         (if req.quoteFor == QuoteFor.qTo then Side.sTo else Side.sFrom))) := by
  unfold fetchSwapQuoteInner
  rw [call_ok hok]
  simp [hlt]

/-- Path lemma: with an ok info reply, an amount not below the minimum and
a failing network check, fetchSwapQuoteInner stops at the info endpoint
with a SwapCurrencyError. -/
theorem fetchSwapQuoteInner_badNetworks (env : GodexEnv) (req : Request)
    (hok : env.infoResponse.ok = true)
    (hnl : ¬ (req.nativeAmount : ℚ) < godexNativeMin env req)
    (hnet : godexNetworksOk env req = false) :
    fetchSwapQuoteInner env req =
      ([godexInfoEndpoint req], Except.error GodexError.currency) := by
  unfold fetchSwapQuoteInner
  rw [call_ok hok]
  simp [hnl, hnet]

/-- C1: with the info call answered, a requested native amount strictly
below the backend minimum converted to native units makes
fetchSwapQuoteInner throw SwapBelowLimitError carrying that native
minimum and the quoted side ('to' for reverse quotes, 'from' otherwise),
without the transaction / transaction-revert endpoint ever being called;
an amount equal to the minimum passes the check (no below-limit error can
be thrown). -/
theorem godex_below_minimum (env : GodexEnv) (req : Request)
    (hok : env.infoResponse.ok = true) :
    ((req.nativeAmount : ℚ) < godexNativeMin env req →
      (fetchSwapQuoteInner env req).2 =
        Except.error (GodexError.belowLimit (godexNativeMin env req)
          (if req.quoteFor == QuoteFor.qTo then Side.sTo else Side.sFrom)) ∧
      Endpoint.transaction ∉ (fetchSwapQuoteInner env req).1 ∧
      Endpoint.transactionRevert ∉ (fetchSwapQuoteInner env req).1) ∧
    ((req.nativeAmount : ℚ) = godexNativeMin env req →
      ∀ m s, (fetchSwapQuoteInner env req).2 ≠
        Except.error (GodexError.belowLimit m s)) := by
  constructor
  · intro hlt
    rw [fetchSwapQuoteInner_below env req hok hlt]
    refine ⟨rfl, ?_, ?_⟩
    · intro hmem
      exact (godexInfoEndpoint_ne req).1 (List.mem_singleton.mp hmem).symm
    · intro hmem
      exact (godexInfoEndpoint_ne req).2 (List.mem_singleton.mp hmem).symm
  · intro heq m s
    have hnl : ¬ (req.nativeAmount : ℚ) < godexNativeMin env req := by
      rw [heq]
      exact lt_irrefl _
    unfold fetchSwapQuoteInner
    rw [call_ok hok]
    simp only [if_neg hnl]
    split
    · simp
    · cases hct : call env.txResponse with
      | error e =>
        rcases call_error_shape hct with he | he <;> simp [he]
      | ok qi => simp

/-- A godex swap request for 10000 satoshi (0.0001 BTC), below the 0.001
BTC minimum declared by envA. -/
def reqB : Request :=
  { nativeAmount := 10000
    quoteFor := QuoteFor.qFrom
    fromCurrencyCode := "BTC"
    toCurrencyCode := "ETH"
    fromPluginId := "bitcoin"
    toPluginId := "ethereum"
    fromTokenId := none
    toTokenId := none }

/-- Witness for C1 at the concrete environment envA: the 10000 satoshi
request is below the 100000 satoshi native minimum, a below-limit error
on the 'from' side is thrown, and the order-creation endpoint is never
called. -/
theorem godex_below_minimum_witness :
    ((reqB.nativeAmount : ℚ) < godexNativeMin envA reqB) ∧
    ((fetchSwapQuoteInner envA reqB).2 =
        Except.error (GodexError.belowLimit (godexNativeMin envA reqB)
          (if reqB.quoteFor == QuoteFor.qTo then Side.sTo else Side.sFrom)) ∧
      Endpoint.transaction ∉ (fetchSwapQuoteInner envA reqB).1 ∧
      Endpoint.transactionRevert ∉ (fetchSwapQuoteInner envA reqB).1) := by
  have hlt : (reqB.nativeAmount : ℚ) < godexNativeMin envA reqB := by
    simp [reqB, envA, godexNativeMin, asApiInfo, denominationToNative]
    norm_num
  exact ⟨hlt, (godex_below_minimum envA reqB rfl).1 hlt⟩

/-- A godex swap request for 20000 BTC (2 * 10^12 satoshi), far above the
10 BTC maximum declared by the backend in envC6. -/
def reqC6 : Request :=
  { nativeAmount := 2000000000000
    quoteFor := QuoteFor.qFrom
    fromCurrencyCode := "BTC"
    toCurrencyCode := "ETH"
    fromPluginId := "bitcoin"
    toPluginId := "ethereum"
    fromTokenId := none
    toTokenId := none }

/-- A godex environment whose backend reply declares min_amount 0.001 BTC
and max_amount 10 BTC; the cleaner drops the maximum. -/
def envC6 : GodexEnv :=
  { fromDecimals := 8
    toDecimals := 18
    fromAddress := "fromAddr"
    toAddress := "toAddr"
    infoResponse :=
      { ok := true
        status := 200
        body :=
          { min_amount := 1 / 1000
            max_amount := some 10
            networks_from := some ["BTC"]
            networks_to := some ["ETH"] } }
    txResponse :=
      { ok := true
        status := 200
        body :=
          { transaction_id := "order-6"
            deposit := "godexDepositAddr"
            deposit_extra_id := none
            deposit_amount := 20000
            withdrawal := "toAddr"
            withdrawal_extra_id := none
            withdrawal_amount := 300
            returnAddr := "fromAddr"
            returnExtraId := none } } }

/-- The SwapOrder fetchSwapQuoteInner assembles for envC6 / reqC6. -/
def orderC6 : SwapOrder :=
  { fromNativeAmount := 2000000000000
    toNativeAmount := 300000000000000000000
    depositAddress := "godexDepositAddr"
    memo := none
    orderId := "order-6" }

/-- Counterexample for C6: the backend declares a 10 BTC maximum, the
requested native amount exceeds it, yet fetchSwapQuoteInner succeeds and
creates the order — no above-maximum limit violation is ever signaled by
the godex plugin. -/
theorem godex_above_maximum_counterexample :
    envC6.infoResponse.body.max_amount = some 10 ∧
    denominationToNative 10 envC6.fromDecimals < (reqC6.nativeAmount : ℚ) ∧
    (fetchSwapQuoteInner envC6 reqC6).2 = Except.ok orderC6 := by
  refine ⟨rfl, ?_, ?_⟩
  · simp [envC6, reqC6, denominationToNative]
    norm_num
  · simp only [fetchSwapQuoteInner, call, envC6, reqC6, orderC6, godexNativeMin,
      godexNetworksOk, networkListHas, asApiInfo, transcribe,
      MAINNET_CODE_TRANSCRIPTION, denominationToNative, toNative,
      godexInfoEndpoint, godexTxEndpoint, nativeToDenomination, List.lookup]
    simp
    norm_num

/-- Replace the max_amount field of the raw info reply of an
environment. -/
def setDeclaredMax (env : GodexEnv) (m : Option ℚ) : GodexEnv :=
  { env with
    infoResponse :=
      { env.infoResponse with
        body := { env.infoResponse.body with max_amount := m } } }

/-- C6 amended: the godex plugin parses no maximum from the backend reply
(asApiInfo keeps only min_amount and the network lists), so the outcome of
fetchSwapQuoteInner — endpoints hit and result alike — is unchanged by any
backend-declared maximum, and no above-maximum violation is ever signaled;
only the below-minimum check is performed. -/
theorem godex_ignores_declared_max (env : GodexEnv) (req : Request)
    (m : Option ℚ) :
    fetchSwapQuoteInner (setDeclaredMax env m) req = fetchSwapQuoteInner env req := by
  obtain ⟨fd, td, fa, ta, ir, tr⟩ := env
  obtain ⟨ok, st, body⟩ := ir
  obtain ⟨mn, mx, nf, nt⟩ := body
  cases ok <;> rfl

/-- C8 amended: a leg whose network is absent from the mainnet-code
transcription whitelist makes fetchSwapQuote throw SwapCurrencyError
before any backend call; a leg missing from the backend reply's
networks_from / networks_to lists makes it throw SwapCurrencyError with no
order-creation call, provided the amount is not below the declared
minimum (the below-minimum check runs first).  In either case no
order-creation endpoint is hit. -/
theorem godex_unsupported_network (env : GodexEnv) (req : Request)
    (hmax : req.quoteFor ≠ QuoteFor.qMax)
    (h : checkWhitelistThrows req = true ∨
         (env.infoResponse.ok = true ∧
          ¬ (req.nativeAmount : ℚ) < godexNativeMin env req ∧
          godexNetworksOk env req = false)) :
    (fetchSwapQuote env req).2 = Except.error GodexError.currency ∧
    Endpoint.transaction ∉ (fetchSwapQuote env req).1 ∧
    Endpoint.transactionRevert ∉ (fetchSwapQuote env req).1 ∧
    (checkWhitelistThrows req = true → (fetchSwapQuote env req).1 = []) := by
  unfold fetchSwapQuote
  split_ifs with h1 h2
  · exact ⟨rfl, by simp, by simp, fun _ => rfl⟩
  · exact ⟨rfl, by simp, by simp, fun _ => rfl⟩
  · rcases h with hwl | ⟨hok, hnl, hnet⟩
    · exact absurd hwl h2
    · rw [show getMaxSwappable req = req from rfl]
      rw [fetchSwapQuoteInner_badNetworks env req hok hnl hnet]
      refine ⟨rfl, ?_, ?_, ?_⟩
      · intro hmem
        exact (godexInfoEndpoint_ne req).1 (List.mem_singleton.mp hmem).symm
      · intro hmem
        exact (godexInfoEndpoint_ne req).2 (List.mem_singleton.mp hmem).symm
      · intro hwl
        exact absurd hwl h2

/-- A godex environment whose backend reply is missing the networks_from
list (the asset is disabled) and declares a 0.001 BTC minimum. -/
def envC8 : GodexEnv :=
  { fromDecimals := 8
    toDecimals := 18
    fromAddress := "fromAddr"
    toAddress := "toAddr"
    infoResponse :=
      { ok := true
        status := 200
        body :=
          { min_amount := 1 / 1000
            max_amount := none
            networks_from := none
            networks_to := some ["ETH"] } }
    txResponse :=
      { ok := true
        status := 200
        body :=
          { transaction_id := "order-8"
            deposit := "godexDepositAddr"
            deposit_extra_id := none
            deposit_amount := 1
            withdrawal := "toAddr"
            withdrawal_extra_id := none
            withdrawal_amount := 16 / 1000
            returnAddr := "fromAddr"
            returnExtraId := none } } }

/-- Counterexample for C8 as stated: with the from-leg's network missing
from the backend's networks_from list but the amount also below the
minimum, fetchSwapQuote throws SwapBelowLimitError, not the claimed
SwapCurrencyError (the below-minimum check runs before the network
check). -/
theorem godex_unsupported_network_counterexample :
    godexNetworksOk envC8 reqB = false ∧
    (fetchSwapQuote envC8 reqB).2 =
      Except.error (GodexError.belowLimit 100000 Side.sFrom) ∧
    (fetchSwapQuote envC8 reqB).2 ≠ Except.error GodexError.currency := by
  have hres : (fetchSwapQuote envC8 reqB).2 =
      Except.error (GodexError.belowLimit 100000 Side.sFrom) := by
    simp only [fetchSwapQuote, checkInvalidCodesThrows, checkWhitelistThrows,
      legInvalid, whitelisted, invalidFromTable, invalidToTable, getMaxSwappable,
      fetchSwapQuoteInner, call, envC8, reqB, godexNativeMin, godexNetworksOk,
      networkListHas, asApiInfo, transcribe, MAINNET_CODE_TRANSCRIPTION,
      denominationToNative, nativeToDenomination, toNative, godexInfoEndpoint,
      godexTxEndpoint, List.lookup]
    simp
    norm_num
  refine ⟨rfl, hres, ?_⟩
  rw [hres]
  simp

/-- A godex swap request whose from-leg network (ripple) is absent from
the MAINNET_CODE_TRANSCRIPTION whitelist. -/
def reqC8w : Request :=
  { nativeAmount := 100000000
    quoteFor := QuoteFor.qFrom
    fromCurrencyCode := "XRP"
    toCurrencyCode := "ETH"
    fromPluginId := "ripple"
    toPluginId := "ethereum"
    fromTokenId := none
    toTokenId := none }

/-- Witness for C8 at the concrete request reqC8w: a from-leg network
absent from the whitelist yields SwapCurrencyError with no backend call at
all. -/
theorem godex_unsupported_network_witness :
    checkWhitelistThrows reqC8w = true ∧
    ((fetchSwapQuote envA reqC8w).2 = Except.error GodexError.currency ∧
      Endpoint.transaction ∉ (fetchSwapQuote envA reqC8w).1 ∧
      Endpoint.transactionRevert ∉ (fetchSwapQuote envA reqC8w).1 ∧
      (checkWhitelistThrows reqC8w = true → (fetchSwapQuote envA reqC8w).1 = [])) :=
  ⟨rfl, godex_unsupported_network envA reqC8w (by decide) (Or.inl rfl)⟩

/-- Shape of one approveLoop run: for some k not exceeding the number of
transactions, the event trace is exactly the in-order blocks
sign/broadcast/save for the first k transactions — optionally followed by
one extra sign event whose broadcast failed — and a trace that stops
before the end of the array means the run ended in an error. -/
theorem approveLoop_shape (w : TotleWallet) (fna : String) (lastIdx : Nat) :
    ∀ (txs : List Tx) (start : Nat) (acc : Option Tx),
    ∃ k, k ≤ txs.length ∧
      (((approveLoop w fna lastIdx txs start acc).1 = seqEventsFrom start k ∧
        (k < txs.length →
          ∃ e, (approveLoop w fna lastIdx txs start acc).2.2 = Except.error e)) ∨
       ((approveLoop w fna lastIdx txs start acc).1 =
          seqEventsFrom start k ++ [TotleEv.signed (start + k)] ∧
        k < txs.length ∧
        ∃ e, (approveLoop w fna lastIdx txs start acc).2.2 = Except.error e)) := by
  intro txs
  induction txs with
  | nil =>
    intro start acc
    exact ⟨0, Nat.le_refl 0, Or.inl ⟨rfl, fun h => absurd h (Nat.lt_irrefl 0)⟩⟩
  | cons tx rest ih =>
    intro start acc
    cases hs : w.signTx tx with
    | error e =>
      refine ⟨0, Nat.zero_le _, Or.inl ⟨?_, fun _ => ⟨e, ?_⟩⟩⟩
      · simp [approveLoop, hs, seqEventsFrom]
      · simp [approveLoop, hs]
    | ok signedTx =>
      cases hb : w.broadcastTx signedTx with
      | error e =>
        refine ⟨0, Nat.zero_le _, Or.inr ⟨?_, by simp, ⟨e, ?_⟩⟩⟩
        · simp [approveLoop, hs, hb, seqEventsFrom]
        · simp [approveLoop, hs, hb]
      | ok btx =>
        obtain ⟨k, hk, hcase⟩ := ih (start + 1) (some btx)
        refine ⟨k + 1, by simpa using Nat.succ_le_succ hk, ?_⟩
        rcases hcase with ⟨hev, herr⟩ | ⟨hev, hklt, herr⟩
        · refine Or.inl ⟨?_, ?_⟩
          · simp only [approveLoop, hs, hb, seqEventsFrom]
            simp [hev]
          · intro hlt
            have hlt2 : k < rest.length := by
              simp only [List.length_cons] at hlt
              omega
            obtain ⟨e, he⟩ := herr hlt2
            exact ⟨e, by simp [approveLoop, hs, hb, he]⟩
        · refine Or.inr ⟨?_, by simpa using Nat.succ_lt_succ hklt, ?_⟩
          · have harith : start + 1 + k = start + (k + 1) := by omega
            simp only [approveLoop, hs, hb, seqEventsFrom]
            simp [hev, harith]
          · obtain ⟨e, he⟩ := herr
            exact ⟨e, by simp [approveLoop, hs, hb, he]⟩

/-- C5: the transactions of a quote are processed strictly in array order
by approve — the event trace consists of complete sign/broadcast/save
blocks for a prefix of the array, possibly ending with a lone sign whose
broadcast was rejected — and any signing or broadcast failure aborts the
run: no event for a later transaction ever appears and the run's result is
an error. -/
theorem totle_approve_strict_order (w : TotleWallet)
    (fna destAddr : String) (txs : List Tx) :
    ∃ k, k ≤ txs.length ∧
      (((approve w fna destAddr txs).events = seqEventsFrom 0 k ∧
        (k < txs.length →
          ∃ e, (approve w fna destAddr txs).result = Except.error e)) ∨
       ((approve w fna destAddr txs).events =
          seqEventsFrom 0 k ++ [TotleEv.signed k] ∧
        k < txs.length ∧
        ∃ e, (approve w fna destAddr txs).result = Except.error e)) := by
  obtain ⟨k, hk, hcase⟩ := approveLoop_shape w fna (txs.length - 1) txs 0 none
  refine ⟨k, hk, ?_⟩
  rcases hcase with ⟨hev, herr⟩ | ⟨hev, hklt, e, he⟩
  · refine Or.inl ⟨?_, ?_⟩
    · simpa [approve] using hev
    · intro hlt
      obtain ⟨e, he⟩ := herr hlt
      exact ⟨e, by simp [approve, he]⟩
  · exact Or.inr ⟨by simpa [approve] using hev, hklt, e, by simp [approve, he]⟩

/-- A first totle transaction: no value transfer (approval step). -/
def tx0 : Tx :=
  { nativeAmount := "0"
    networkFee := "21000"
    parentNetworkFee := none
    txid := "t0" }

/-- A second totle transaction: the swap step. -/
def tx1 : Tx :=
  { nativeAmount := "0"
    networkFee := "42000"
    parentNetworkFee := none
    txid := "t1" }

/-- A wallet that rejects signing the second transaction and accepts
everything else. -/
def wFailSecond : TotleWallet :=
  { signTx := fun tx =>
      if tx.txid == "t1" then Except.error "rejected" else Except.ok tx
    broadcastTx := fun tx => Except.ok { tx with txid := "b-" ++ tx.txid } }

/-- Witness for C5 at a concrete two-transaction quote whose second sign
is rejected. -/
theorem totle_approve_strict_order_witness :
    ∃ k, k ≤ ([tx0, tx1] : List Tx).length ∧
      (((approve wFailSecond "100" "dest" [tx0, tx1]).events =
          seqEventsFrom 0 k ∧
        (k < ([tx0, tx1] : List Tx).length →
          ∃ e, (approve wFailSecond "100" "dest" [tx0, tx1]).result =
            Except.error e)) ∨
       ((approve wFailSecond "100" "dest" [tx0, tx1]).events =
          seqEventsFrom 0 k ++ [TotleEv.signed k] ∧
        k < ([tx0, tx1] : List Tx).length ∧
        ∃ e, (approve wFailSecond "100" "dest" [tx0, tx1]).result =
          Except.error e)) :=
  totle_approve_strict_order wFailSecond "100" "dest" [tx0, tx1]

/-- A wallet that accepts every sign and broadcast, marking broadcast
transactions with a fresh txid. -/
def wOk : TotleWallet :=
  { signTx := fun tx => Except.ok tx
    broadcastTx := fun tx => Except.ok { tx with txid := "b-" ++ tx.txid } }

/-- Counterexample for C7: a quote whose expirationTimestamp (0) is
already past at execution time (now = 1000) is not rejected by approve —
the first transaction is signed, broadcast and the run completes. -/
theorem totle_expired_quote_still_executes :
    makeTotleSwapPluginQuote "100" "200" [tx0] "dest" false (some 0) =
      some
        { fromNativeAmount := "100"
          toNativeAmount := "200"
          networkFeeNative := "21000"
          destinationAddress := "dest"
          isEstimate := false
          expirationDate := some 0 } ∧
    (0 : Nat) < 1000 ∧
    TotleEv.signed 0 ∈ (approve wOk "100" "dest" [tx0]).events ∧
    (approve wOk "100" "dest" [tx0]).result =
      Except.ok
        { transaction :=
            { nativeAmount := "0"
              networkFee := "21000"
              parentNetworkFee := none
              txid := "b-t0" }
          destinationAddress := "dest"
          orderId := "b-t0" } := by
  refine ⟨rfl, by norm_num, ?_, rfl⟩
  simp [approve, approveLoop, wOk, tx0]

/-- C7 amended: approve performs no expiration check — given any quote
whose expirationTimestamp has already passed, execution still proceeds:
whenever the wallet accepts the first transaction's signature, the first
transaction is signed (and the run is unaffected by the current time). -/
theorem totle_approve_no_expiration_check (w : TotleWallet)
    (fna destAddr : String) (tx : Tx) (txs : List Tx)
    (expiration now : Nat) (hexpired : expiration < now)
    (signedTx : Tx) (hsign : w.signTx tx = Except.ok signedTx) :
    TotleEv.signed 0 ∈ (approve w fna destAddr (tx :: txs)).events := by
  cases hb : w.broadcastTx signedTx with
  | error e => simp [approve, approveLoop, hsign, hb]
  | ok btx => simp [approve, approveLoop, hsign, hb]

/-- Witness for the amended C7 at a concrete expired quote: an expiration
of 0 against a now of 1000 still sees the first transaction signed. -/
theorem totle_approve_no_expiration_check_witness :
    (0 : Nat) < 1000 ∧ wOk.signTx tx0 = Except.ok tx0 ∧
    TotleEv.signed 0 ∈ (approve wOk "100" "dest" [tx0]).events :=
  ⟨by norm_num, rfl,
   totle_approve_no_expiration_check wOk "100" "dest" tx0 [] 0 1000
     (by norm_num) tx0 rfl⟩

/-- A successful approveLoop run over a nonempty list ends with the
broadcast of the signed last transaction, which becomes the candidate
swapTx. -/
theorem approveLoop_ok_result (w : TotleWallet) (fna : String) (lastIdx : Nat) :
    ∀ (txs : List Tx) (start : Nat) (acc : Option Tx) (v : Option Tx),
    (approveLoop w fna lastIdx txs start acc).2.2 = Except.ok v →
    (txs = [] ∧ v = acc) ∨
    (∃ lastTx s b, txs.getLast? = some lastTx ∧
      w.signTx lastTx = Except.ok s ∧ w.broadcastTx s = Except.ok b ∧
      v = some b) := by
  intro txs
  induction txs with
  | nil =>
    intro start acc v hv
    refine Or.inl ⟨rfl, ?_⟩
    simp only [approveLoop, Except.ok.injEq] at hv
    exact hv.symm
  | cons tx rest ih =>
    intro start acc v hv
    cases hs : w.signTx tx with
    | error e => simp [approveLoop, hs] at hv
    | ok signedTx =>
      cases hb : w.broadcastTx signedTx with
      | error e => simp [approveLoop, hs, hb] at hv
      | ok btx =>
        simp only [approveLoop, hs, hb] at hv
        rcases ih (start + 1) (some btx) v hv with ⟨hrest, hveq⟩ |
          ⟨lastTx, s, b, hl, hsg, hbr, hveq⟩
        · subst hrest
          exact Or.inr ⟨tx, signedTx, btx, by simp, hs, hb, hveq⟩
        · refine Or.inr ⟨lastTx, s, b, ?_, hsg, hbr, hveq⟩
          cases rest with
          | nil => simp at hl
          | cons r2 rest2 => simpa [List.getLast?_cons_cons] using hl

/-- A successful approveLoop run rewrites the transaction list so that
exactly the entry at index lastIdx has its nativeAmount replaced by the
negated fromNativeAmount. -/
theorem approveLoop_ok_txsAfter (w : TotleWallet) (fna : String)
    (lastIdx : Nat) :
    ∀ (txs : List Tx) (start : Nat) (acc : Option Tx) (v : Option Tx),
    (approveLoop w fna lastIdx txs start acc).2.2 = Except.ok v →
    (approveLoop w fna lastIdx txs start acc).2.1 =
      mutateLast fna lastIdx txs start := by
  intro txs
  induction txs with
  | nil =>
    intro start acc v hv
    simp [approveLoop, mutateLast]
  | cons tx rest ih =>
    intro start acc v hv
    cases hs : w.signTx tx with
    | error e => simp [approveLoop, hs] at hv
    | ok signedTx =>
      cases hb : w.broadcastTx signedTx with
      | error e => simp [approveLoop, hs, hb] at hv
      | ok btx =>
        simp only [approveLoop, hs, hb] at hv ⊢
        rw [mutateLast]
        exact congrArg _ (ih (start + 1) (some btx) v hv)

/-- mutateLast preserves the length of the list. -/
theorem mutateLast_length (fna : String) (lastIdx : Nat) :
    ∀ (txs : List Tx) (start : Nat),
    (mutateLast fna lastIdx txs start).length = txs.length := by
  intro txs
  induction txs with
  | nil => intro start; rfl
  | cons tx rest ih =>
    intro start
    simp [mutateLast, ih (start + 1)]

/-- Pointwise description of mutateLast: entry i is modified exactly when
its absolute index start + i equals lastIdx. -/
theorem mutateLast_getElem (fna : String) (lastIdx : Nat) :
    ∀ (txs : List Tx) (start i : Nat),
    (mutateLast fna lastIdx txs start)[i]? =
      (txs[i]?).map (fun tx =>
        if start + i == lastIdx then { tx with nativeAmount := "-" ++ fna }
        else tx) := by
  intro txs
  induction txs with
  | nil => intro start i; simp [mutateLast]
  | cons tx rest ih =>
    intro start i
    cases i with
    | zero => simp [mutateLast]
    | succ j =>
      simp only [mutateLast, List.getElem?_cons_succ]
      rw [ih (start + 1) j]
      have harith : start + 1 + j = start + (j + 1) := by omega
      rw [harith]

/-- C9: the last transaction of the array is the swap send — the quote's
network fee is computed from the last transaction (parentNetworkFee if
non-null, else networkFee), a successful approve returns the broadcast of
the signed last transaction with its txid as orderId, and only the last
transaction's nativeAmount is overwritten with the negated
fromNativeAmount (all earlier entries are unchanged). -/
theorem totle_last_step_is_swap (w : TotleWallet)
    (fna tna destAddr : String) (isEstimate : Bool)
    (expirationDate : Option Nat) (txs : List Tx) (lastTx : Tx)
    (hlast : txs.getLast? = some lastTx) :
    makeTotleSwapPluginQuote fna tna txs destAddr isEstimate expirationDate =
      some
        { fromNativeAmount := fna
          toNativeAmount := tna
          networkFeeNative := totleNetworkFee lastTx
          destinationAddress := destAddr
          isEstimate := isEstimate
          expirationDate := expirationDate } ∧
    (∀ r, (approve w fna destAddr txs).result = Except.ok r →
      (∃ s, w.signTx lastTx = Except.ok s ∧
        w.broadcastTx s = Except.ok r.transaction) ∧
      r.orderId = r.transaction.txid ∧
      (approve w fna destAddr txs).txsAfter.getLast? =
        some { lastTx with nativeAmount := "-" ++ fna } ∧
      (∀ i, i + 1 < txs.length →
        (approve w fna destAddr txs).txsAfter[i]? = txs[i]?)) := by
  constructor
  · unfold makeTotleSwapPluginQuote
    rw [hlast]
  · intro r hr
    have hne : txs ≠ [] := by
      intro hnil
      rw [hnil] at hlast
      simp at hlast
    cases hres : (approveLoop w fna (txs.length - 1) txs 0 none).2.2 with
    | error e => simp [approve, hres] at hr
    | ok v =>
      cases v with
      | none => simp [approve, hres] at hr
      | some b =>
        have hrval : r =
            { transaction := b
              destinationAddress := destAddr
              orderId := b.txid } := by
          simp only [approve, hres] at hr
          simp only [Except.ok.injEq] at hr
          exact hr.symm
        rcases approveLoop_ok_result w fna (txs.length - 1) txs 0 none
            (some b) hres with ⟨hnil, _⟩ | ⟨lastTx2, s, b2, hl2, hsg, hbr, hveq⟩
        · exact absurd hnil hne
        · have hlteq : lastTx2 = lastTx := by
            rw [hlast] at hl2
            exact (Option.some_inj.mp hl2).symm
          have hbe : b = b2 := Option.some_inj.mp hveq
          have hsg2 : w.signTx lastTx = Except.ok s := by
            rw [← hlteq]
            exact hsg
          have hbr2 : w.broadcastTx s = Except.ok b := by
            rw [hbe]
            exact hbr
          have htxsAfter : (approve w fna destAddr txs).txsAfter =
              mutateLast fna (txs.length - 1) txs 0 := by
            simp only [approve]
            exact approveLoop_ok_txsAfter w fna (txs.length - 1) txs 0 none
              (some b) hres
          refine ⟨⟨s, hsg2, by rw [hrval]; exact hbr2⟩, by rw [hrval], ?_, ?_⟩
          · rw [htxsAfter]
            rw [List.getLast?_eq_getElem?, mutateLast_length,
              mutateLast_getElem]
            have hidx : txs[txs.length - 1]? = some lastTx := by
              rw [← List.getLast?_eq_getElem?]
              exact hlast
            rw [hidx]
            simp
          · intro i hi
            rw [htxsAfter, mutateLast_getElem]
            have hne2 : (0 + i == txs.length - 1) = false := by
              simp only [Nat.zero_add, beq_eq_false_iff_ne, ne_eq]
              omega
            rw [hne2]
            cases txs[i]? <;> simp

/-- Witness for C9 at a concrete two-transaction quote executed by an
accepting wallet. -/
theorem totle_last_step_is_swap_witness :
    ([tx0, tx1] : List Tx).getLast? = some tx1 ∧
    (makeTotleSwapPluginQuote "100" "200" [tx0, tx1] "dest" false none =
      some
        { fromNativeAmount := "100"
          toNativeAmount := "200"
          networkFeeNative := totleNetworkFee tx1
          destinationAddress := "dest"
          isEstimate := false
          expirationDate := none } ∧
    (∀ r, (approve wOk "100" "dest" [tx0, tx1]).result = Except.ok r →
      (∃ s, wOk.signTx tx1 = Except.ok s ∧
        wOk.broadcastTx s = Except.ok r.transaction) ∧
      r.orderId = r.transaction.txid ∧
      (approve wOk "100" "dest" [tx0, tx1]).txsAfter.getLast? =
        some { tx1 with nativeAmount := "-" ++ "100" } ∧
      (∀ i, i + 1 < ([tx0, tx1] : List Tx).length →
        (approve wOk "100" "dest" [tx0, tx1]).txsAfter[i]? =
          ([tx0, tx1] : List Tx)[i]?))) :=
  ⟨rfl, totle_last_step_is_swap wOk "100" "200" "dest" false none
    [tx0, tx1] tx1 rfl⟩

end Edge
